import Mathlib

/-!
Verification of the packaging manifest of the repository
Anurag637/Text-Speech-Sign-Interpreater.

The repository's only source file is `setup.py`, a declarative call to
`setuptools.setup` with constant literal arguments.  We embed the manifest
shallowly: the metadata record produced by the call, the keyword-argument
list of the call site, the repository's file listing (used by package
discovery), and the raw text of the file itself.
-/

namespace SetupPy

/-- A value passed as a keyword argument to `setuptools.setup` in this
manifest: every argument at the call site is either a string literal or a
list of strings. -/
inductive SetupValue where
  | str (s : String)
  | strList (l : List String)
  deriving DecidableEq

/-- The files present in the supplied repository snapshot: the snapshot
contains the single file `setup.py` at the top level and nothing else. -/
def repoFiles : List String := ["setup.py"]

/-- Split a character list at every occurrence of the separator `c`.
The separators themselves are dropped; `n` separators yield `n + 1`
(possibly empty) segments. -/
def splitOnChar (c : Char) : List Char → List (List Char)
  | [] => [[]]
  | x :: xs =>
    match splitOnChar c xs with
    | [] => if x == c then [[], []] else [[x]]
    | y :: ys => if x == c then [] :: y :: ys else (x :: y) :: ys

/-- Drop the final `/`-separated segment of a path, i.e. the directory
part of a file path. -/
def dropLastSegment (l : List Char) : List Char :=
  ((l.reverse.dropWhile (fun c => c != '/')).drop 1).reverse

/-- Modelled from the spec: `setuptools.find_packages` is external library
code not included in the repository; the spec describes its result as "an
automatically discovered set of sub-packages".  We model the discovery
rule of setuptools: a directory is a package exactly when it holds an
`__init__.py` file, so the packages are the directories of the
`__init__.py` files among the repository's files. -/
def find_packages (files : List String) : List String :=
  (files.filter
      (fun f =>
        f.data = "__init__.py".data ∨
          List.isSuffixOf "/__init__.py".data f.data)).map
    (fun f => String.mk (dropLastSegment f.data))

/-- The metadata record declared by the manifest: one field per keyword
argument of the `setuptools.setup` call in `setup.py`. -/
structure Metadata where
  name : String
  version : String
  description : String
  author : String
  author_email : String
  url : String
  packages : List String
  setup_requires : List String
  deriving DecidableEq

/-- The embedding of `setuptools.setup`: the call packages its keyword
arguments into the metadata record of the distribution. -/
def setup (name version description author author_email url : String)
    (packages setup_requires : List String) : Metadata :=
  ⟨name, version, description, author, author_email, url,
    packages, setup_requires⟩

/-- The manifest of `setup.py`, lines 3-12: the `setuptools.setup` call
with its literal arguments. -/
def manifest : Metadata :=
  setup
    "audio-speech-to-sign-language-converter"
    "5.1.0"
    "Python project"
    "Anurag Pandey"
    "anuragpandey12@gmail.com"
    "https://github.com/Anurag637/Audio-Speech-To-Sign-Language-Converter.git"
    (find_packages repoFiles)
    ["nltk", "joblib", "click", "regex", "sqlparse", "setuptools"]

/-- The keyword arguments of the `setuptools.setup` call site, in source
order, as (argument name, argument value) pairs. -/
def setupKwargs : List (String × SetupValue) :=
  [("name", SetupValue.str "audio-speech-to-sign-language-converter"),
   ("version", SetupValue.str "5.1.0"),
   ("description", SetupValue.str "Python project"),
   ("author", SetupValue.str "Anurag Pandey"),
   ("author_email", SetupValue.str "anuragpandey12@gmail.com"),
   ("url", SetupValue.str
     "https://github.com/Anurag637/Audio-Speech-To-Sign-Language-Converter.git"),
   ("packages", SetupValue.strList (find_packages repoFiles)),
   ("setup_requires", SetupValue.strList
     ["nltk", "joblib", "click", "regex", "sqlparse", "setuptools"])]

/-- The environment a build runs in: command line and environment
variables.  The manifest reads neither. -/
structure BuildEnv where
  argv : List String
  env : List (String × String)

/-- Evaluating the manifest in a build environment: `setup.py` consists of
constant literals only, so the environment does not influence the
resulting metadata. -/
def evalManifest (_ : BuildEnv) : Metadata := manifest

/-- Evaluating the manifest as a fallible computation: the module body of
`setup.py` performs no fallible operation (no file reads, no parsing, no
arithmetic), so evaluation always produces the metadata record. -/
def runSetup (e : BuildEnv) : Except String Metadata :=
  Except.ok (evalManifest e)

/-- The exact text of `src/setup.py` (422 bytes; the final line `)` has no
trailing newline). -/
def setupPySource : String :=
  "import setuptools\n\nsetuptools.setup(\n    name=\x27audio-speech-to-sign-language-converter\x27,\n    version=\x275.1.0\x27,\n    description=\x27Python project\x27,\n    author=\x27Anurag Pandey\x27,\n    author_email=\x27anuragpandey12@gmail.com\x27,\n    url=\x27https://github.com/Anurag637/Audio-Speech-To-Sign-Language-Converter.git\x27,\n    packages=setuptools.find_packages(),\n    setup_requires=[\x27nltk\x27, \x27joblib\x27,\x27click\x27,\x27regex\x27,\x27sqlparse\x27,\x27setuptools\x27],\n)"

/-- The number of lines of a text in the POSIX sense: a line is a
newline-terminated character sequence, so the count is the number of
newline characters (what `wc -l` reports). -/
def countLines (s : String) : Nat :=
  (s.data.filter (fun c => c == '\n')).length

/-- A non-empty all-digit character sequence: one numeric component of a
version string. -/
def isNonEmptyNumeric (l : List Char) : Bool :=
  !l.isEmpty && l.all Char.isDigit

/-- A semantic version string: exactly three non-empty numeric components
separated by dots, with no other characters. -/
def isSemVer (s : String) : Bool :=
  match splitOnChar '.' s.data with
  | [a, b, c] => isNonEmptyNumeric a && isNonEmptyNumeric b && isNonEmptyNumeric c
  | _ => false

/-- The final `/`-separated segment of a path or URL. -/
def lastSegment (l : List Char) : List Char :=
  (splitOnChar '/' l).getLastD []

/-- Lowercase every character of a character sequence. -/
def lowerChars (l : List Char) : List Char :=
  l.map Char.toLower

/-- Strip a trailing `.git` from a character sequence, if present. -/
def stripDotGit (l : List Char) : List Char :=
  if List.isSuffixOf ".git".data l then l.take (l.length - 4) else l

end SetupPy

namespace SetupPy

/-- C1: the manifest declares a non-empty package name string and a
non-empty version string. -/
theorem claim_C1_nonempty_name_and_version :
    0 < manifest.name.length ∧ 0 < manifest.version.length := by
  decide

/-- C2: the version field of the manifest is a semantic version string:
exactly three non-empty numeric components separated by dots, with no
other characters. -/
theorem claim_C2_version_is_semver :
    isSemVer manifest.version = true := by
  decide

/-- C3: every element of the setup-time dependency list is a non-empty
string; the list contains `nltk`, `joblib`, `click`, `regex` and
`sqlparse`, and no element beyond these and `setuptools`. -/
theorem claim_C3_setup_requires :
    (∀ s ∈ manifest.setup_requires, 0 < s.length) ∧
    "nltk" ∈ manifest.setup_requires ∧
    "joblib" ∈ manifest.setup_requires ∧
    "click" ∈ manifest.setup_requires ∧
    "regex" ∈ manifest.setup_requires ∧
    "sqlparse" ∈ manifest.setup_requires ∧
    (∀ s ∈ manifest.setup_requires,
      s = "nltk" ∨ s = "joblib" ∨ s = "click" ∨ s = "regex" ∨
        s = "sqlparse" ∨ s = "setuptools") := by
  decide

/-- C4: the manifest passes exactly the keyword arguments `name`,
`version`, `description`, `author`, `author_email`, `url`, `packages`
(via package discovery) and `setup_requires` (a list of dependency name
strings), and no others; in particular no entry points, scripts or
console scripts are declared. -/
theorem claim_C4_exact_fields :
    setupKwargs.map Prod.fst =
      ["name", "version", "description", "author", "author_email", "url",
        "packages", "setup_requires"] ∧
    ("packages", SetupValue.strList (find_packages repoFiles)) ∈ setupKwargs ∧
    ("setup_requires", SetupValue.strList
      ["nltk", "joblib", "click", "regex", "sqlparse", "setuptools"])
      ∈ setupKwargs ∧
    "entry_points" ∉ setupKwargs.map Prod.fst ∧
    "scripts" ∉ setupKwargs.map Prod.fst ∧
    "console_scripts" ∉ setupKwargs.map Prod.fst := by
  decide

/-- C5: evaluating the manifest is deterministic and constant: the build
environment does not influence the resulting metadata, so any two
evaluations produce identical metadata records. -/
theorem claim_C5_deterministic :
    ∀ e₁ e₂ : BuildEnv, evalManifest e₁ = evalManifest e₂ := by
  intro e₁ e₂
  rfl

/-- C6: the supplied source of the repository consists of exactly 11
lines: `setup.py` holds 11 newline-terminated lines (the final `)` is an
unterminated fragment, not counted by the POSIX line count). -/
theorem claim_C6_eleven_lines :
    countLines setupPySource = 11 := by
  decide

/-- C7: evaluation of the manifest never fails: for every build
environment the embedded evaluation returns the metadata record and never
an error value. -/
theorem claim_C7_never_fails :
    ∀ e : BuildEnv, runSetup e = Except.ok manifest := by
  intro e
  rfl

/-- C9: the automatically discovered set of sub-packages is empty: the
`packages` field is produced by `find_packages`, and the repository
contains no package directories, so the distribution exports zero
sub-packages. -/
theorem claim_C9_no_packages :
    manifest.packages = find_packages repoFiles ∧ manifest.packages = [] := by
  decide

/-- C10: the package name is internally consistent with the contact URL:
lowercasing the final path segment of the `url` field and stripping its
`.git` suffix yields exactly the `name` field. -/
theorem claim_C10_name_matches_url :
    stripDotGit (lowerChars (lastSegment manifest.url.data)) =
      manifest.name.data := by
  decide

end SetupPy
